import Mathlib

/-!
Verification of the `map_box_from` crate (`src/convert.rs`, `src/lib.rs`).

The crate consists of two traits, `MapBoxFrom` and `MapBoxInto`, operating on
`Box`-ed values, together with two blanket implementations:

* `impl<T: ?Sized, R: ?Sized> MapBoxInto<R> for T where R: MapBoxFrom<T>`,
  forwarding `map_box_into` to `R::map_box_from`;
* `impl<T, R> MapBoxFrom<T> for R where T: Into<R>` (both parameters carry the
  implicit `Sized` bound), whose body is `value.pipe(|i| *i).into().into()` —
  unbox, native conversion, rebox (the reboxing `.into()` is the standard
  library's `impl<T> From<T> for Box<T>`, i.e. `Box::new`).

We embed this shallowly: Rust traits become Lean type classes, the two blanket
implementations become instances whose bodies transliterate the Rust bodies,
and `Sized` becomes a marker class that fixed-shape model types carry while
the unsized wrapper of the documentation example does not.  The documentation
example (trait `DynSelf`, wrapper `AsUnsized`, extension `IntoUnsized`) is
embedded by its semantics: since the private trait `DynSelf<T>` is implemented
only by `T` itself, a `Box<dyn DynSelf<T>>` owns exactly one value of type
`T`, and the unsafe pointer casts in the example carry that value unchanged.

Compile-time facts (coherence rejection, the `Sized`-only scope of the
blanket derivation) cannot be value-level statements about the shallow
embedding, so they are settled against a small deep model of implementation
applicability and coherence checking, modelled from the specification, over a
closed universe of model types.
-/

universe u

/-- Models Rust's `Box<T>`: an exclusively owned heap-resident value.  In a
shallow embedding ownership and heap residence are invisible, so a box is a
one-field wrapper around its pointee. -/
structure Box (T : Type u) where
  val : T

/-- Models `Box::new` (and the standard library's `From<T> for Box<T>`). -/
def Box.new (t : T) : Box T :=
  ⟨t⟩

/-- Models `tap::Pipe::pipe`: apply a function to a value, in suffix order. -/
def pipe (a : α) (f : α → β) : β :=
  f a

/-- Marker class modelling Rust's `Sized` bound: fixed-shape types (size known
at compile time).  Model types standing for Rust's sized types receive an
instance; the unsized wrapper `AsUnsized` receives none. -/
class Sized (T : Type u) : Prop

instance instSizedNat : Sized Nat := ⟨⟩

instance instSizedInt : Sized Int := ⟨⟩

/-- Models Rust's native conversion capability `T: Into<R>`.  In Rust, `Into`
has a `Sized` supertrait and its target parameter carries the implicit `Sized`
bound, so instances below are guarded by the `Sized` marker. -/
class Into (T : Type u) (R : Type u) where
  into : T → R

/-- Models the native reflexive conversion `impl<T> From<T> for T` (hence
`T: Into<T>`), which exists for every sized type. -/
instance instIntoRefl (T : Type u) [Sized T] : Into T T :=
  ⟨fun t => t⟩

/-- Models the standard library's `impl<T> From<T> for Box<T>` (hence
`T: Into<Box<T>>`), i.e. `Box::new`; this is the reboxing step used by the
blanket implementation in `convert.rs`. -/
instance instIntoBox (T : Type u) [Sized T] : Into T (Box T) :=
  ⟨Box.new⟩

/-- Models a concrete native widening conversion between two sized types,
such as `impl From<i32> for i64` (here `Nat` into `Int`), used to exercise
the blanket implementations on a non-identity pair. -/
instance instIntoNatInt : Into Nat Int :=
  ⟨fun n => (n : Int)⟩

/-- Models the trait `MapBoxFrom<T>` of `convert.rs`: `MapBoxFrom T R` states
that `R` implements `MapBoxFrom<T>`, with operation
`map_box_from : Box<T> -> Box<Self>`.  Both parameters may be unsized. -/
class MapBoxFrom (T : Type u) (R : Type u) where
  map_box_from : Box T → Box R

/-- Models the trait `MapBoxInto<T>` of `convert.rs`: `MapBoxInto S T` states
that `S` implements `MapBoxInto<T>`, with operation
`map_box_into : Box<Self> -> Box<T>`.  Both parameters may be unsized. -/
class MapBoxInto (S : Type u) (T : Type u) where
  map_box_into : Box S → Box T

/-- Transliterates `impl<T: ?Sized, R: ?Sized> MapBoxInto<R> for T where
R: MapBoxFrom<T>`: the body is exactly `R::map_box_from(self)`. -/
instance instMapBoxIntoOfFrom (T R : Type u) [MapBoxFrom T R] : MapBoxInto T R where
  map_box_into self := MapBoxFrom.map_box_from self

/-- Transliterates `impl<T, R> MapBoxFrom<T> for R where T: Into<R>` (both
parameters implicitly `Sized`): the body is `value.pipe(|i| *i).into().into()`
— unbox by dereference, convert natively to `R`, rebox via
`From<T> for Box<T>`. -/
instance instMapBoxFromOfInto (T R : Type u) [Sized T] [Sized R] [Into T R] :
    MapBoxFrom T R where
  map_box_from value :=
    Into.into (T := R) (R := Box R) (Into.into (T := T) (R := R) (pipe value fun i => i.val))

/-- Models the documentation example's `Box<dyn DynSelf<T>>` pointee.  The
private trait `DynSelf<T>` is implemented only by `T` itself
(`impl<T: ?Sized> DynSelf<T> for T`), so a trait object of it erases exactly
one concrete type and its pointee is a value of type `T`. -/
structure DynSelfObj (T : Type u) where
  val : T

/-- Models the documentation example's `#[repr(transparent)] struct
AsUnsized<T: ?Sized>(dyn DynSelf<T>)`: an unsized wrapper holding the same
pointee as the wrapped trait object.  It carries no `Sized` instance,
modelling that `AsUnsized<T>` is an unsized Rust type. -/
structure AsUnsized (T : Type u) where
  obj : DynSelfObj T

/-- Models `IntoUnsized::into_unsized` from the documentation example: box
`self` as a `Box<dyn DynSelf<T>>`, then cast the raw pointer to
`*mut AsUnsized<T>`.  The cast reinterprets the same heap value, so in the
model the value is carried unchanged into the wrapper. -/
def into_unsized [Sized T] (v : T) : Box (AsUnsized T) :=
  let boxed : Box (DynSelfObj T) := Box.new ⟨v⟩
  ⟨⟨boxed.val⟩⟩

/-- Models `AsUnsized::into_sized` from the documentation example: cast the
raw `Box<Self>` pointer to `*mut T` and move the pointee out.  In the model
this extracts the carried value. -/
def AsUnsized.into_sized [Sized T] (b : Box (AsUnsized T)) : T :=
  b.val.obj.val

/-- Transliterates the documentation example's bespoke identity implementation
`impl<T> MapBoxFrom<AsUnsized<T>> for AsUnsized<T>`: the body returns `value`
unchanged. -/
instance instMapBoxFromAsUnsized (T : Type u) [Sized T] :
    MapBoxFrom (AsUnsized T) (AsUnsized T) where
  map_box_from value := value

/-- Claim C1: for sized `T`, `R` with a native conversion `T: Into<R>` and no
bespoke implementation, `map_box_from` on `Box::new t` unboxes, applies the
native conversion and reboxes, so the unwrapped result equals `t.into()`. -/
theorem map_box_from_delegates_to_native (T R : Type u) [Sized T] [Sized R]
    [Into T R] (t : T) :
    (MapBoxFrom.map_box_from (Box.new t) : Box R).val = Into.into t :=
  rfl

/-- Witness for C1 at the concrete widening conversion on `Box::new 5`. -/
theorem map_box_from_delegates_to_native_witness :
    (MapBoxFrom.map_box_from (Box.new (5 : Nat)) : Box Int).val = ((5 : Nat) : Int) :=
  map_box_from_delegates_to_native Nat Int 5

/-- Claim C2: whenever `MapBoxFrom T R` is implemented, the derived
`map_box_into` on any `Box T` is resolvable and equals `R::map_box_from`
applied to the same box — pure forwarding, no transformation introduced. -/
theorem map_box_into_forwards_to_map_box_from (T R : Type u) [MapBoxFrom T R]
    (b : Box T) :
    (MapBoxInto.map_box_into b : Box R) = MapBoxFrom.map_box_from b :=
  rfl

/-- Witness for C2 on the bespoke unsized identity pair at the boxed value 3. -/
theorem map_box_into_forwards_to_map_box_from_witness :
    (MapBoxInto.map_box_into (into_unsized (3 : Int)) : Box (AsUnsized Int)) =
      MapBoxFrom.map_box_from (into_unsized (3 : Int)) :=
  map_box_into_forwards_to_map_box_from (AsUnsized Int) (AsUnsized Int) (into_unsized 3)

/-- Claim C3: the documentation scenario: lift `16 : i32` with `into_unsized`,
apply the bespoke identity `map_box_from` on `AsUnsized<i32>`, unwrap with
`into_sized`; the result equals the original 16. -/
theorem doc_example_identity_roundtrip :
    AsUnsized.into_sized
      (MapBoxFrom.map_box_from (into_unsized (16 : Int)) : Box (AsUnsized Int)) = 16 :=
  rfl

/-- Claim C6: for every sized `T`, the identity pair `MapBoxFrom<T> for T` is
available through the blanket derivation (via the native identity conversion
`T: Into<T>`), and `map_box_from` on `Box::new v` returns a box containing a
value equal to the original `v`. -/
theorem map_box_from_identity_pair (T : Type u) [Sized T] (v : T) :
    (MapBoxFrom.map_box_from (Box.new v) : Box T).val = v :=
  rfl

/-- Witness for C6 at `7 : Int`. -/
theorem map_box_from_identity_pair_witness :
    (MapBoxFrom.map_box_from (Box.new (7 : Int)) : Box Int).val = 7 :=
  map_box_from_identity_pair Int 7

/-- Claim C8: composing the two blanket derivations end to end: for sized `T`,
`R` with `T: Into<R>`, `map_box_into` resolved via the `MapBoxInto` blanket
forwards to the `MapBoxFrom` blanket, so the unwrapped result on `Box::new t`
equals `t.into()`. -/
theorem map_box_into_delegates_to_native (T R : Type u) [Sized T] [Sized R]
    [Into T R] (t : T) :
    (MapBoxInto.map_box_into (Box.new t) : Box R).val = Into.into t :=
  rfl

/-- Witness for C8 at the concrete widening conversion on `Box::new 9`. -/
theorem map_box_into_delegates_to_native_witness :
    (MapBoxInto.map_box_into (Box.new (9 : Nat)) : Box Int).val = ((9 : Nat) : Int) :=
  map_box_into_delegates_to_native Nat Int 9

/-- Claim C7: both public operations are total, infallible functions on owned
boxed values.  In the embedding their codomains are `Box R` and not an error
wrapper (`Option`/`Except` do not appear), and every type-correct call
produces a boxed result: both operations yield the same existing box. -/
theorem conversions_total_and_infallible (T R : Type u) [MapBoxFrom T R]
    (b : Box T) :
    ∃ r : Box R, MapBoxFrom.map_box_from b = r ∧ MapBoxInto.map_box_into b = r :=
  ⟨MapBoxFrom.map_box_from b, rfl, rfl⟩

/-- Witness for C7 on the blanket pair at `Box::new 2`. -/
theorem conversions_total_and_infallible_witness :
    ∃ r : Box Int, MapBoxFrom.map_box_from (Box.new (2 : Nat)) = r ∧
      MapBoxInto.map_box_into (Box.new (2 : Nat)) = r :=
  conversions_total_and_infallible Nat Int (Box.new 2)

/-- Claim C9: the documentation example's lifting pair is a round trip for
every sized type: `v.into_unsized().into_sized()` equals `v`. -/
theorem into_unsized_roundtrip (T : Type u) [Sized T] (v : T) :
    AsUnsized.into_sized (into_unsized v) = v :=
  rfl

/-- Witness for C9 at `42 : Int`. -/
theorem into_unsized_roundtrip_witness :
    AsUnsized.into_sized (into_unsized (42 : Int)) = 42 :=
  into_unsized_roundtrip Int 42

/-- Modelled from the spec: a closed universe of model Rust types for the
compile-time resolution model — two fixed-shape primitives and the open-ended
wrapper former `AsUnsized` (which is unsized for any argument). -/
inductive RTy : Type
  | i32 : RTy
  | i64 : RTy
  | asUnsized : RTy → RTy
  deriving DecidableEq

/-- Whether a model type is fixed-shape (`Sized`): the primitives are, any
`AsUnsized` wrapper is not. -/
def RTy.sized : RTy → Bool
  | .i32 => true
  | .i64 => true
  | .asUnsized _ => false

/-- Modelled from the spec: the host language's native `Into` relation on the
closed universe — the reflexive identity conversion, which exists exactly for
fixed-shape types, plus the widening conversion from `i32` to `i64`. -/
def intoNative : RTy → RTy → Bool
  | .i32, .i64 => true
  | t, r => t.sized && r.sized && t == r

/-- The `MapBoxFrom` implementations a program may contain, for the
compile-time resolution model: the crate's blanket implementation derived
from `Into`, or a bespoke implementation written for one specific pair. -/
inductive MapBoxFromImpl : Type
  | blanketOfInto : MapBoxFromImpl
  | bespoke : RTy → RTy → MapBoxFromImpl
  deriving DecidableEq

/-- Whether an implementation applies to the pair `(t, r)` (i.e. provides
`MapBoxFrom<t> for r`).  The blanket `impl<T, R> MapBoxFrom<T> for R where
T: Into<R>` carries the implicit `Sized` bounds on both parameters and
requires the native conversion; a bespoke implementation applies exactly to
the pair it was written for. -/
def MapBoxFromImpl.applies : MapBoxFromImpl → RTy → RTy → Bool
  | .blanketOfInto, t, r => t.sized && r.sized && intoNative t r
  | .bespoke s g, t, r => s == t && g == r

/-- How many of a program's implementations apply to the pair `(t, r)`. -/
def applicableCount (impls : List MapBoxFromImpl) (t r : RTy) : Nat :=
  impls.countP fun i => i.applies t r

/-- Modelled from the spec: the host language's coherence checker accepts a
program exactly when at most one implementation applies to every pair. -/
def coherenceAccepts (impls : List MapBoxFromImpl) : Prop :=
  ∀ t r : RTy, applicableCount impls t r ≤ 1

/-- Claim C4: a program that writes a direct `MapBoxFrom<T> for R`
implementation for a fixed-shape pair already covered by the blanket
derivation from `T: Into<R>` has two applicable implementations for that
pair, so coherence checking rejects it at compile time. -/
theorem coherence_rejects_overlap_with_blanket (t r : RTy)
    (ht : t.sized = true) (hr : r.sized = true) (hi : intoNative t r = true) :
    ¬ coherenceAccepts [MapBoxFromImpl.blanketOfInto, MapBoxFromImpl.bespoke t r] := by
  intro h
  have h2 := h t r
  simp [applicableCount, List.countP_cons, MapBoxFromImpl.applies, ht, hr, hi] at h2

/-- Witness for C4: duplicating the blanket-covered pair `(i32, i64)` is
rejected. -/
theorem coherence_rejects_overlap_with_blanket_witness :
    RTy.sized RTy.i32 = true ∧ RTy.sized RTy.i64 = true ∧
      intoNative RTy.i32 RTy.i64 = true ∧
      ¬ coherenceAccepts [MapBoxFromImpl.blanketOfInto,
        MapBoxFromImpl.bespoke RTy.i32 RTy.i64] :=
  ⟨by decide, by decide, by decide,
    coherence_rejects_overlap_with_blanket RTy.i32 RTy.i64 (by decide) (by decide) (by decide)⟩

/-- Claim C5: the blanket derivation never applies when either parameter is
open-ended: for such a pair the blanket alone resolves nothing (so the
identity pair on an unsized type is not derived automatically), and adding a
bespoke implementation for the pair is what makes resolution succeed, with
exactly one applicable implementation. -/
theorem blanket_never_applies_to_unsized (t r : RTy)
    (h : t.sized = false ∨ r.sized = false) :
    MapBoxFromImpl.applies MapBoxFromImpl.blanketOfInto t r = false ∧
      applicableCount [MapBoxFromImpl.blanketOfInto] t r = 0 ∧
      applicableCount [MapBoxFromImpl.blanketOfInto, MapBoxFromImpl.bespoke t r] t r = 1 := by
  have hb : MapBoxFromImpl.applies MapBoxFromImpl.blanketOfInto t r = false := by
    rcases h with h | h <;> simp [MapBoxFromImpl.applies, h]
  have hd : MapBoxFromImpl.applies (MapBoxFromImpl.bespoke t r) t r = true := by
    simp [MapBoxFromImpl.applies]
  refine ⟨hb, ?_, ?_⟩ <;>
    simp [applicableCount, List.countP_cons, hb, hd]

/-- Witness for C5 at the identity pair on the open-ended `AsUnsized i32`. -/
theorem blanket_never_applies_to_unsized_witness :
    (RTy.sized (RTy.asUnsized RTy.i32) = false ∨
      RTy.sized (RTy.asUnsized RTy.i32) = false) ∧
    MapBoxFromImpl.applies MapBoxFromImpl.blanketOfInto
      (RTy.asUnsized RTy.i32) (RTy.asUnsized RTy.i32) = false ∧
    applicableCount [MapBoxFromImpl.blanketOfInto]
      (RTy.asUnsized RTy.i32) (RTy.asUnsized RTy.i32) = 0 ∧
    applicableCount [MapBoxFromImpl.blanketOfInto,
        MapBoxFromImpl.bespoke (RTy.asUnsized RTy.i32) (RTy.asUnsized RTy.i32)]
      (RTy.asUnsized RTy.i32) (RTy.asUnsized RTy.i32) = 1 :=
  ⟨Or.inl (by decide),
    blanket_never_applies_to_unsized (RTy.asUnsized RTy.i32) (RTy.asUnsized RTy.i32)
      (Or.inl (by decide))⟩
